import Mathlib

/-!
Shallow embedding of the Flask-SQLAlchemy demo application (`src/app.py`),
at the pinned library versions (Flask 3.0.3, SQLAlchemy 2.0.32,
Flask-SQLAlchemy 3.1.1).

The application declares its base as
`class Base(DeclarativeBase, MappedAsDataclass)`, so the single model
`User` is a SQLAlchemy native dataclass.  Its primary key
`id: Mapped[int] = mapped_column(primary_key=True, autoincrement=True)`
carries neither `init=False` nor a default, so the generated dataclass
`__init__` takes `id` as a required argument.  The call
`User(username=..., email=...)` in the create handler therefore raises
`TypeError` on every POST whose two form fields are present: the handler
never reaches `db.session.add`/`db.session.commit`, no row is ever
inserted by this application, and the request surfaces as an unhandled
500.  When a form field is missing, `request.form[...]` raises
`BadRequestKeyError`, an `HTTPException` that Flask renders as a
400 Bad Request.

The relational store is embedded as a list of rows together with the
autoincrement counter and a flag recording whether the `user` table has
been created (rows can pre-exist via direct store manipulation outside
the application, which the read routes then serve).  Each route handler
is a function from the store (and the request data) to the pair of the
resulting store and the HTTP response.  `db.get_or_404` aborts with 404
when the id is not present, and the `<int:id>` converter of the routing
layer matches the regex `\d+`, where Python's `\d` (compiled without
`re.ASCII`) matches any Unicode decimal digit (category Nd) and
`int()` converts such a run of digits to the number it denotes.
-/

namespace FlaskSqlalchemyApp

/-- Row of the `user` table: `class User(db.Model)` in `src/app.py` with
columns `id` (integer primary key, autoincrement), `username` (unique)
and `email`. -/
structure User where
  id : Nat
  username : String
  email : String
  deriving Repr, DecidableEq

/-- State of the SQLite store backing the application: whether the `user`
table exists, its rows in insertion order, and the next autoincrement id. -/
structure Store where
  tableCreated : Bool
  rows : List User
  nextId : Nat
  deriving Repr, DecidableEq

/-- Embedding of `db.create_all()` run at startup inside the application
context: creates the `user` table when absent; as the source comments note,
"create_all does not update tables if they are already in the database",
so existing rows and the autoincrement counter are untouched. -/
def create_all (s : Store) : Store :=
  if s.tableCreated then s else { s with tableCreated := true }

/-- HTTP responses the application can produce: a 200 rendering of one of
the four templates, Werkzeug's 404, the 400 Bad Request that Flask
renders for a `BadRequestKeyError` raised by `request.form[...]` on a
missing key, or the unhandled-exception 500. -/
inductive Response where
  | okIndex : Response
  | okList (users : List User) : Response
  | okForm : Response
  | okDetail (u : User) : Response
  | badRequest : Response
  | notFound : Response
  | serverError : Response
  deriving Repr, DecidableEq

/-- Request method of the create route (`methods=["GET", "POST"]`). -/
inductive Method where
  | get : Method
  | post : Method
  deriving Repr, DecidableEq

/-- Submitted form of the create route: `request.form` may or may not
carry each of the two fields read by the handler. -/
structure CreateForm where
  username : Option String
  email : Option String
  deriving Repr, DecidableEq

/-- Handler of `GET /`: renders `index.html`, no store interaction. -/
def index (s : Store) : Store × Response :=
  (s, Response.okIndex)

/-- SQL `ORDER BY user.username` comparison used by the list query. -/
def byUsername (a b : User) : Prop :=
  a.username ≤ b.username

instance : DecidableRel byUsername :=
  fun a b => inferInstanceAs (Decidable (a.username ≤ b.username))

instance : IsTotal User byUsername :=
  ⟨fun a b => le_total a.username b.username⟩

instance : IsTrans User byUsername :=
  ⟨fun _ _ _ hab hbc => le_trans hab hbc⟩

/-- Result list of `db.session.execute(db.select(User).order_by(User.username)).scalars()`:
all rows of the `user` table sorted by `username` ascending. -/
def listedUsers (s : Store) : List User :=
  s.rows.insertionSort byUsername

/-- Handler of `GET /users` (`user_list`): runs the ordered select and
renders `user/list.html` with the result; the store is not written. -/
def user_list (s : Store) : Store × Response :=
  (s, Response.okList (listedUsers s))

/-- Handler of `/users/create` (`user_create`).  On POST it reads
`request.form["username"]` and `request.form["email"]`; a missing field
raises `BadRequestKeyError`, which Flask renders as 400 Bad Request.
With both fields present, `User(username=..., email=...)` raises
`TypeError` — under `MappedAsDataclass` the primary key `id`, declared
without `init=False`, is a required argument of the generated dataclass
`__init__` — so the request surfaces as an unhandled 500 before
`db.session.add`, `db.session.commit` or the redirect are reached, and
the store is never written.  On GET it renders `user/create.html`. -/
def user_create (s : Store) (method : Method) (form : CreateForm) : Store × Response :=
  match method with
  | Method.post =>
    match form.username, form.email with
    | some _, some _ => (s, Response.serverError)
    | _, _ => (s, Response.badRequest)
  | Method.get => (s, Response.okForm)

/-- Primary-key lookup performed by `db.get_or_404(User, id)`. -/
def findUser (s : Store) (id : Nat) : Option User :=
  s.rows.find? fun r => r.id == id

/-- Handler of `GET /user/detail/<int:id>` (`user_detail`): `db.get_or_404`
either yields the row with the given primary key, rendering
`user/detail.html`, or aborts the request with 404. -/
def user_detail (s : Store) (id : Nat) : Store × Response :=
  match findUser s id with
  | some u => (s, Response.okDetail u)
  | none => (s, Response.notFound)

/-- Codepoint ranges of the Unicode decimal digits (general category Nd,
Unicode 15.0, as carried by CPython's Unicode database): each range is a
run zero..nine, paired as (codepoint of the zero, codepoint of the nine).
Python's `\d`, compiled without `re.ASCII`, matches exactly these
characters. -/
def ndRanges : List (Nat × Nat) :=
  [(0x0030, 0x0039), (0x0660, 0x0669), (0x06F0, 0x06F9), (0x07C0, 0x07C9),
   (0x0966, 0x096F), (0x09E6, 0x09EF), (0x0A66, 0x0A6F), (0x0AE6, 0x0AEF),
   (0x0B66, 0x0B6F), (0x0BE6, 0x0BEF), (0x0C66, 0x0C6F), (0x0CE6, 0x0CEF),
   (0x0D66, 0x0D6F), (0x0DE6, 0x0DEF), (0x0E50, 0x0E59), (0x0ED0, 0x0ED9),
   (0x0F20, 0x0F29), (0x1040, 0x1049), (0x1090, 0x1099), (0x17E0, 0x17E9),
   (0x1810, 0x1819), (0x1946, 0x194F), (0x19D0, 0x19D9), (0x1A80, 0x1A89),
   (0x1A90, 0x1A99), (0x1B50, 0x1B59), (0x1BB0, 0x1BB9), (0x1C40, 0x1C49),
   (0x1C50, 0x1C59), (0xA620, 0xA629), (0xA8D0, 0xA8D9), (0xA900, 0xA909),
   (0xA9D0, 0xA9D9), (0xA9F0, 0xA9F9), (0xAA50, 0xAA59), (0xABF0, 0xABF9),
   (0xFF10, 0xFF19), (0x104A0, 0x104A9), (0x10D30, 0x10D39),
   (0x11066, 0x1106F), (0x110F0, 0x110F9), (0x11136, 0x1113F),
   (0x111D0, 0x111D9), (0x112F0, 0x112F9), (0x11450, 0x11459),
   (0x114D0, 0x114D9), (0x11650, 0x11659), (0x116C0, 0x116C9),
   (0x11730, 0x11739), (0x118E0, 0x118E9), (0x11950, 0x11959),
   (0x11C50, 0x11C59), (0x11D50, 0x11D59), (0x11DA0, 0x11DA9),
   (0x11F50, 0x11F59), (0x16A60, 0x16A69), (0x16AC0, 0x16AC9),
   (0x16B50, 0x16B59), (0x1D7CE, 0x1D7FF), (0x1E140, 0x1E149),
   (0x1E2F0, 0x1E2F9), (0x1E4F0, 0x1E4F9), (0x1E950, 0x1E959),
   (0x1FBF0, 0x1FBF9)]

/-- Test whether a character is a Unicode decimal digit, i.e. matched by
Python's `\d` in the `<int:id>` converter's regex `\d+`. -/
def isNdChar (c : Char) : Bool :=
  ndRanges.any fun r => r.1 ≤ c.toNat && c.toNat ≤ r.2

/-- Decimal value of a Unicode decimal digit: its offset from the zero of
its run, as assigned by the Unicode database and used by `int()`. -/
def ndDigitVal (c : Char) : Nat :=
  match ndRanges.find? (fun r => r.1 ≤ c.toNat && c.toNat ≤ r.2) with
  | some r => c.toNat - r.1
  | none => 0

/-- Value computed by Python's `int()` on a run of Unicode decimal digits
(the only strings the converter hands it): base-10 accumulation of the
digit values. -/
def intOfDigits (l : List Char) : Nat :=
  l.foldl (fun n c => 10 * n + ndDigitVal c) 0

/-- Route matching for the `<int:id>` segment: Werkzeug's `int` converter
matches `\d+`, i.e. a non-empty run of Unicode decimal digits (no sign),
and `to_python` applies `int()` to the matched text; any other segment
fails to match. -/
def parseIntSegment (seg : String) : Option Nat :=
  if !seg.isEmpty && seg.data.all isNdChar then
    some (intOfDigits seg.data)
  else
    none

/-- Dispatch of a request whose path is `/user/detail/<seg>`: when the
segment matches the `int` converter the handler runs with the parsed id;
otherwise routing fails and Werkzeug answers 404 without invoking any
handler. -/
def route_user_detail (s : Store) (seg : String) : Store × Response :=
  match parseIntSegment seg with
  | some id => user_detail s id
  | none => (s, Response.notFound)

/-- Requests understood by the application, one constructor per route
(and per method of the create route). -/
inductive Request where
  | getIndex : Request
  | getUsers : Request
  | getCreate : Request
  | postCreate (form : CreateForm) : Request
  | getDetail (seg : String) : Request
  deriving Repr, DecidableEq

/-- Top-level dispatch: every request of the application's HTTP surface
mapped to its handler. -/
def handle (s : Store) (req : Request) : Store × Response :=
  match req with
  | Request.getIndex => index s
  | Request.getUsers => user_list s
  | Request.getCreate => user_create s Method.get { username := none, email := none }
  | Request.postCreate form => user_create s Method.post form
  | Request.getDetail seg => route_user_detail s seg

/-- Concrete store holding one pre-existing row: the row with id 1 is in
use and the autoincrement counter stands at 2 (the situation the spec's
scenario calls "assuming id 1 already used"; such rows can only arise by
direct store manipulation, since the application itself cannot insert). -/
def store1 : Store :=
  { tableCreated := true
    rows := [{ id := 1, username := "alice", email := "a@x.com" }]
    nextId := 2 }

/-- Concrete store holding one pre-existing row with primary key 5, used
to observe the detail handler being reached. -/
def store5 : Store :=
  { tableCreated := true
    rows := [{ id := 5, username := "eve", email := "e@x.com" }]
    nextId := 6 }

/-- C1 (code bug): contrary to the claimed insert-and-redirect path, every
POST to `/users/create` with both fields present fails with the
`TypeError` raised by `User(username=..., email=...)` — under
`MappedAsDataclass` the primary key is a required `__init__` argument —
so the request answers an unhandled 500, the store is unchanged, no row
is inserted, no id is assigned and no redirect is issued. -/
theorem user_create_post_typeerror (s : Store) (u e : String) :
    user_create s Method.post { username := some u, email := some e } =
      (s, Response.serverError) :=
  rfl

/-- C2 (code bug): re-submitting an existing username does leave the store
with exactly one row carrying that username, but the failure is the
`TypeError` at `User` construction (an unhandled 500 with the store never
touched), not a unique-constraint violation at commit: `db.session.add`
and `db.session.commit` are never reached. -/
theorem user_create_post_duplicate_typeerror :
    user_create store1 Method.post { username := some "alice", email := some "a2@x.com" } =
      (store1, Response.serverError) ∧
    (store1.rows.filter fun r => r.username == "alice").length = 1 ∧
    ((user_create store1 Method.post
        { username := some "alice", email := some "a2@x.com" }).1.rows.filter
        fun r => r.username == "alice").length = 1 :=
  ⟨rfl, by decide, by decide⟩

/-- C3: `GET /users` leaves the store untouched and renders exactly the
stored rows (a permutation of them) sorted by username ascending; on the
empty store it renders the empty list rather than an error. -/
theorem user_list_spec (s : Store) :
    (user_list s).1 = s ∧
    (user_list s).2 = Response.okList (listedUsers s) ∧
    (listedUsers s).Perm s.rows ∧
    (listedUsers s).Sorted byUsername ∧
    (s.rows = [] → user_list s = (s, Response.okList [])) := by
  refine ⟨rfl, rfl, List.perm_insertionSort byUsername s.rows,
    List.sorted_insertionSort byUsername s.rows, ?_⟩
  intro hnil
  simp [user_list, listedUsers, hnil]

/-- C3 witness: on a concrete store the listing is the username-sorted
permutation of the rows, and on the empty store it is the empty list. -/
theorem user_list_spec_witness :
    ((store1.rows = []) = False) ∧
    (user_list { tableCreated := true, rows := [], nextId := 1 }).2 = Response.okList [] ∧
    (listedUsers store1).Sorted byUsername :=
  ⟨by simp [store1],
   ((user_list_spec { tableCreated := true, rows := [], nextId := 1 }).2.2.2.2 rfl) ▸ rfl,
   (user_list_spec store1).2.2.2.1⟩

/-- C4: `GET /user/detail/<id>` never writes; when a row with the given
primary key exists, `db.get_or_404` yields it and the handler renders the
detail view, and when none exists the single lookup-or-fail operation
answers 404 — never a generic server error. -/
theorem user_detail_spec (s : Store) (id : Nat) :
    (user_detail s id).1 = s ∧
    (∀ u, findUser s id = some u → user_detail s id = (s, Response.okDetail u)) ∧
    (findUser s id = none → user_detail s id = (s, Response.notFound)) := by
  refine ⟨?_, ?_, ?_⟩
  · unfold user_detail
    cases findUser s id <;> rfl
  · intro u hu
    unfold user_detail
    rw [hu]
  · intro hn
    unfold user_detail
    rw [hn]

/-- C4 witness: on the concrete store, id 1 renders alice's detail view
and the never-assigned id 5 yields 404. -/
theorem user_detail_spec_witness :
    (findUser store1 1 = some { id := 1, username := "alice", email := "a@x.com" } ∧
      user_detail store1 1 =
        (store1, Response.okDetail { id := 1, username := "alice", email := "a@x.com" })) ∧
    (findUser store1 5 = none ∧ user_detail store1 5 = (store1, Response.notFound)) :=
  ⟨⟨by decide, (user_detail_spec store1 1).2.1 _ (by decide)⟩,
   ⟨by decide, (user_detail_spec store1 5).2.2 (by decide)⟩⟩

/-- C5 counterexample: a POST whose form lacks `email` answers 400 Bad
Request (Flask renders the `BadRequestKeyError` from `request.form[...]`
as an `HTTPException`), not the 500 server error the claim states. -/
theorem user_create_missing_field_counterexample :
    user_create store1 Method.post { username := some "bob", email := none } =
      (store1, Response.badRequest) ∧
    (store1, Response.badRequest) ≠
      ((store1, Response.serverError) : Store × Response) :=
  ⟨rfl, by decide⟩

/-- C5 (amended): a POST to `/users/create` whose form lacks `username`
or `email` raises `BadRequestKeyError` when the handler reads the missing
field — no application-level validation layer intercepts the request
before field access — and Flask renders it as a 400 Bad Request, with the
store unchanged. -/
theorem user_create_post_missing_field (s : Store) (form : CreateForm)
    (h : form.username = none ∨ form.email = none) :
    user_create s Method.post form = (s, Response.badRequest) := by
  rcases form with ⟨fu, fe⟩
  rcases h with h | h
  · simp only at h
    subst h
    cases fe <;> rfl
  · simp only at h
    subst h
    cases fu <;> rfl

/-- C5 witness: posting a form that carries `username` but no `email`
yields the 400 Bad Request and leaves the store as it was. -/
theorem user_create_post_missing_field_witness :
    (({ username := some "bob", email := none } : CreateForm).username = none ∨
      ({ username := some "bob", email := none } : CreateForm).email = none) ∧
    user_create store1 Method.post { username := some "bob", email := none } =
      (store1, Response.badRequest) :=
  ⟨Or.inr rfl,
   user_create_post_missing_field store1 { username := some "bob", email := none }
     (Or.inr rfl)⟩

/-- C6: the startup schema initializer `db.create_all()` is idempotent —
running it twice yields the same store as running it once, it never
alters rows or the autoincrement counter, and on a store that already
contains the table it is a no-op. -/
theorem create_all_idempotent (s : Store) :
    create_all (create_all s) = create_all s ∧
    (create_all s).rows = s.rows ∧
    (create_all s).nextId = s.nextId ∧
    (s.tableCreated = true → create_all s = s) := by
  unfold create_all
  by_cases h : s.tableCreated <;> simp [h]

/-- C6 witness: on the concrete store that already contains the table,
the initializer is a no-op. -/
theorem create_all_idempotent_witness :
    store1.tableCreated = true ∧ create_all store1 = store1 :=
  ⟨rfl, (create_all_idempotent store1).2.2.2 rfl⟩

/-- C7: `GET /users/create` renders the empty input form and performs no
store interaction — the store after the request equals the store before
it, whatever form data accompanies the request. -/
theorem user_create_get_no_write (s : Store) (form : CreateForm) :
    (user_create s Method.get form).1 = s ∧
    (user_create s Method.get form).2 = Response.okForm :=
  ⟨rfl, rfl⟩

/-- C8 (code bug): the application performs no store writes at all —
every request of its HTTP surface leaves the store exactly as it was,
because the create handler's insert path is unreachable (the `TypeError`
at `User` construction aborts every POST).  In particular no record is
ever created through the create handler, so no id is ever assigned by
the store on the claim's "insert"; existing rows are indeed never
updated or deleted. -/
theorem handle_no_writes (s : Store) (req : Request) :
    (handle s req).1 = s := by
  cases req with
  | getIndex => rfl
  | getUsers => rfl
  | getCreate => rfl
  | getDetail seg =>
    show (route_user_detail s seg).1 = s
    unfold route_user_detail
    cases hp : parseIntSegment seg with
    | none => rfl
    | some id =>
      unfold user_detail
      cases hf : findUser s id <;> simp [hf]
  | postCreate form =>
    rcases form with ⟨fu, fe⟩
    cases fu <;> cases fe <;> rfl

/-- C9 (code bug): two successive creates with distinct usernames and the
same email do not both succeed — each POST fails with the `TypeError` at
`User` construction (unhandled 500), and neither record is persisted:
the store after both requests equals the store before them. -/
theorem user_create_post_same_email_fails :
    user_create store1 Method.post { username := some "bob", email := some "b@y.com" } =
      (store1, Response.serverError) ∧
    user_create
        (user_create store1 Method.post
          { username := some "bob", email := some "b@y.com" }).1
        Method.post { username := some "carol", email := some "b@y.com" } =
      (store1, Response.serverError) :=
  ⟨rfl, rfl⟩

/-- C10 counterexample: the Arabic-Indic digit five (U+0665) is a Unicode
decimal digit, so Werkzeug's `\d+` matches the segment and `int()`
converts it to 5 — the request reaches the detail handler (here finding
the row with id 5) instead of being rejected by routing with 404 as the
claim states. -/
theorem route_user_detail_unicode_counterexample :
    route_user_detail store5 "٥" =
      (store5, Response.okDetail { id := 5, username := "eve", email := "e@x.com" }) ∧
    route_user_detail store5 "٥" ≠ (store5, Response.notFound) :=
  ⟨by decide, by decide⟩

/-- C10 (amended): a request to `/user/detail/<seg>` whose segment is not
a non-empty run of Unicode decimal digits (e.g. one containing a sign,
a letter, or any other non-digit, or the empty segment) never reaches the
handler — the `<int:id>` converter fails to match and routing answers 404
with the store untouched; matching segments are converted by `int()`, so
the handler's id argument is always a non-negative machine integer parsed
from the path. -/
theorem route_user_detail_reject (s : Store) (seg : String)
    (h : seg.data.all isNdChar = false ∨ seg = "") :
    route_user_detail s seg = (s, Response.notFound) := by
  unfold route_user_detail parseIntSegment
  rcases h with h | h
  · simp [h]
  · subst h
    simp [String.isEmpty]

/-- C10 witness: the negative segment "-1" is rejected by routing with a
404 on the concrete store. -/
theorem route_user_detail_reject_witness :
    (("-1" : String).data.all isNdChar = false ∨ ("-1" : String) = "") ∧
    route_user_detail store1 "-1" = (store1, Response.notFound) :=
  ⟨Or.inl (by decide), route_user_detail_reject store1 "-1" (Or.inl (by decide))⟩

end FlaskSqlalchemyApp
